/-
Verification of the checkout / order / shipment core of the
Ecommerce-Website-DiligentCorp backend (src/ecommerce_app.jsx).

The embedding models the Express route handlers as pure functions over an
explicit application state:
  * Product / CartItem / Shipment / Order mirror the mongoose schemas
    (backend/models/*.js).  Mongo ObjectIds become Nat ids handed out by a
    counter; Date fields (createdAt, updatedAt) are not modelled; statuses
    and payment methods are the raw strings the code stores.
  * `checkout` is the POST /checkout handler (lines 306-339): empty-cart
    check, the validation loop (lines 311-315), the decrement loop
    (lines 317-322), order-item construction and total (lines 324-325),
    shipment and order creation (lines 328-331), cart clearing
    (lines 334-335) and the response (line 338).
  * `getTracking` is GET /orders/:id/tracking (lines 357-361) and
    `updateShipment` is POST /orders/:id/shipment (lines 364-373).
A JavaScript TypeError (dereferencing a null document) is modelled by the
explicit `crash` outcome: the request produces no normal JSON response.
-/
import Mathlib

namespace Shop

/-- backend/models/Product.js: name, price, stock, codAvailable.
Prices and stock are JS numbers; stock is an Int because nothing in the
code stops it from going negative.  `pid` stands for the Mongo id. -/
structure Product where
  pid : Nat
  name : String
  price : Int
  stock : Int
  codAvailable : Bool
deriving DecidableEq, Repr

/-- backend/models/Cart.js, cartItemSchema: a product reference and a quantity. -/
structure CartItem where
  product : Nat
  quantity : Nat
deriving DecidableEq, Repr

/-- backend/models/Shipment.js: trackingNumber and a free-form status string
(the schema stores any string; `updatedAt` is not modelled). -/
structure Shipment where
  sid : Nat
  trackingNumber : String
  status : String
deriving DecidableEq, Repr

/-- backend/models/Order.js, orderItemSchema: product reference, quantity,
priceAtPurchase and the cod flag captured at checkout. -/
structure OrderItem where
  product : Nat
  quantity : Nat
  priceAtPurchase : Int
  cod : Bool
deriving DecidableEq, Repr

/-- backend/models/Order.js: items, total, paymentMethod, paymentStatus and
the one-to-one shipment reference (user and createdAt are not modelled). -/
structure Order where
  oid : Nat
  items : List OrderItem
  total : Int
  paymentMethod : String
  paymentStatus : String
  shipment : Nat
deriving DecidableEq, Repr

/-- The persistent state seen by one authenticated user: the shared product
catalog, the user cart, and the order / shipment collections.  `nextId` is
the id counter standing in for Mongo ObjectId generation. -/
structure AppState where
  catalog : List Product
  cart : List CartItem
  orders : List Order
  shipments : List Shipment
  nextId : Nat
deriving DecidableEq, Repr

/-- Product.findById (first catalog entry with the given id). -/
def findProduct (catalog : List Product) (id : Nat) : Option Product :=
  catalog.find? fun p => p.pid == id

/-- Order.findById. -/
def findOrder (orders : List Order) (oid : Nat) : Option Order :=
  orders.find? fun o => o.oid == oid

/-- Shipment.findById. -/
def findShipmentById (shipments : List Shipment) (sid : Nat) : Option Shipment :=
  shipments.find? fun sh => sh.sid == sid

/-- Outcome of the POST /checkout handler: the three early returns
(lines 309, 314), a TypeError crash on a missing product document
(line 313-314 dereference a null), or the success response of line 338
carrying orderId and paymentRequired. -/
inductive CheckoutResult where
  | emptyCart
  | insufficientStock (productName : String)
  | crash
  | ok (orderId : Nat) (paymentRequired : Bool)
deriving DecidableEq, Repr

/-- Outcome of the stock-validation loop, lines 311-315 of the checkout
handler: the loop walks the cart in order; at the first item whose product
document is missing it crashes (null dereference), at the first item with
`product.stock < item.quantity` it returns the 400 error naming that
product; otherwise it passes, and we also record the product documents it
read (the populated products of line 308, identical in a sequential run),
which lines 324-331 then use. -/
inductive ValidationOutcome where
  | missing
  | insufficient (p : Product)
  | ok (entries : List (Product × Nat))
deriving DecidableEq, Repr

/-- The validation loop of lines 311-315, item by item in cart order. -/
def validateCart (catalog : List Product) : List CartItem → ValidationOutcome
  | [] => .ok []
  | it :: rest =>
    match findProduct catalog it.product with
    | none => .missing
    | some p =>
      if p.stock < (it.quantity : Int) then .insufficient p
      else
        match validateCart catalog rest with
        | .missing => .missing
        | .insufficient q => .insufficient q
        | .ok entries => .ok ((p, it.quantity) :: entries)

/-- One iteration of the decrement loop (lines 318-321):
`product.stock -= item.quantity; await product.save()`.  Catalog ids are
unique, so updating every entry with that id is the single document save. -/
def applyDecrement (catalog : List Product) (it : CartItem) : List Product :=
  catalog.map fun p =>
    if p.pid = it.product then { p with stock := p.stock - (it.quantity : Int) } else p

/-- The whole decrement loop of lines 317-322. -/
def decrementAll (catalog : List Product) (cart : List CartItem) : List Product :=
  cart.foldl applyDecrement catalog

/-- Total quantity a cart requests for one product id (0 when absent). -/
def cartQty : List CartItem → Nat → Int
  | [], _ => 0
  | it :: rest, pid => (if pid = it.product then (it.quantity : Int) else 0) + cartQty rest pid

/-- Line 324: an order line item built from the populated product record. -/
def mkOrderItem (e : Product × Nat) : OrderItem :=
  { product := e.1.pid, quantity := e.2, priceAtPurchase := e.1.price, cod := e.1.codAvailable }

/-- Line 325: `items.reduce((s,it)=>s + it.quantity*it.priceAtPurchase, 0)`. -/
def computeTotal (items : List OrderItem) : Int :=
  items.foldl (fun acc it => acc + (it.quantity : Int) * it.priceAtPurchase) 0

/-- Line 328: `Shipment.create({trackingNumber, status: 'Created'})`. -/
def mkShipment (nextId : Nat) : Shipment :=
  { sid := nextId, trackingNumber := "TRK-" ++ toString nextId, status := "Created" }

/-- Line 331: `Order.create(...)` with the conditional initial paymentStatus. -/
def mkOrder (nextId : Nat) (entries : List (Product × Nat)) (pm : String) : Order :=
  { oid := nextId + 1,
    items := entries.map mkOrderItem,
    total := computeTotal (entries.map mkOrderItem),
    paymentMethod := pm,
    paymentStatus := if pm = "cod" then "Pending" else "Processing",
    shipment := nextId }

/-- State after the success path of checkout: stock decremented
(lines 317-322), shipment and order inserted (lines 328-331), cart cleared
(lines 334-335). -/
def successState (s : AppState) (entries : List (Product × Nat)) (pm : String) : AppState :=
  { catalog := decrementAll s.catalog s.cart,
    cart := [],
    orders := mkOrder s.nextId entries pm :: s.orders,
    shipments := mkShipment s.nextId :: s.shipments,
    nextId := s.nextId + 2 }

/-- The POST /checkout handler, lines 306-339, run sequentially to
completion.  `shippingAddress` and any other body field (the body has no
idempotency-key field) are ignored by the handler, as in the source. -/
def checkout (pm : String) (s : AppState) : CheckoutResult × AppState :=
  if s.cart.isEmpty then (.emptyCart, s)
  else
    match validateCart s.catalog s.cart with
    | .missing => (.crash, s)
    | .insufficient p => (.insufficientStock p.name, s)
    | .ok entries => (.ok (s.nextId + 1) (pm != "cod"), successState s entries pm)

/-- The POST /checkout handler when the `Order.create` of line 331 fails
(the database write throws).  The handler has no try/catch and no
compensation path, so the error propagates with every earlier write kept:
the stock decrements of lines 317-322 and the shipment insert of line 328
persist, and the cart of lines 334-335 is never cleared. -/
def checkoutOrderCreateFails (pm : String) (s : AppState) : CheckoutResult × AppState :=
  if s.cart.isEmpty then (.emptyCart, s)
  else
    match validateCart s.catalog s.cart with
    | .missing => (.crash, s)
    | .insufficient p => (.insufficientStock p.name, s)
    | .ok _ =>
      (.crash,
        { s with catalog := decrementAll s.catalog s.cart,
                 shipments := mkShipment s.nextId :: s.shipments,
                 nextId := s.nextId + 1 })

/-- Two concurrent POST /checkout requests (two users, carts `cartA` and
`cartB`) over the shared catalog, under the interleaving in which both
workers finish their validation loop (lines 311-315) before either starts
its decrement loop (lines 317-322).  Every `findById` and `save` is an
`await`, i.e. a suspension point, so this interleaving is realizable.  Each
worker whose validation passed goes on to decrement and create its order;
the booleans say whether each request succeeded, and the third component is
the final catalog. -/
def interleavedCheckout2 (catalog : List Product) (cartA cartB : List CartItem) :
    Bool × Bool × List Product :=
  match validateCart catalog cartA, validateCart catalog cartB with
  | .ok _, .ok _ => (true, true, decrementAll (decrementAll catalog cartA) cartB)
  | .ok _, _ => (true, false, decrementAll catalog cartA)
  | _, .ok _ => (false, true, decrementAll catalog cartB)
  | _, _ => (false, false, catalog)

/-- Outcome of GET /orders/:id/tracking, lines 357-361: 404 when the order
is absent; a TypeError crash when the order exists but the populated
shipment is null (line 360 dereferences it); otherwise the JSON response. -/
inductive TrackingResult where
  | notFound
  | crash
  | ok (trackingNumber : String) (status : String)
deriving DecidableEq, Repr

/-- The GET /orders/:id/tracking handler, lines 357-361. -/
def getTracking (oid : Nat) (s : AppState) : TrackingResult :=
  match findOrder s.orders oid with
  | none => .notFound
  | some o =>
    match findShipmentById s.shipments o.shipment with
    | none => .crash
    | some sh => .ok sh.trackingNumber sh.status

/-- Outcome of POST /orders/:id/shipment, lines 364-373: 404 when the order
is absent, a TypeError crash when its shipment document is absent
(line 369 writes through a null), otherwise the `ok` response. -/
inductive UpdateResult where
  | notFound
  | crash
  | ok
deriving DecidableEq, Repr

/-- Line 369 `shipment.status = status` followed by `shipment.save()`:
the status string is overwritten with whatever the request body carried. -/
def setShipmentStatus (shipments : List Shipment) (sid : Nat) (newStatus : String) :
    List Shipment :=
  shipments.map fun sh => if sh.sid = sid then { sh with status := newStatus } else sh

/-- The POST /orders/:id/shipment handler, lines 364-373 (`updatedAt` is a
wall-clock stamp and is not modelled). -/
def updateShipment (oid : Nat) (newStatus : String) (s : AppState) :
    UpdateResult × AppState :=
  match findOrder s.orders oid with
  | none => (.notFound, s)
  | some o =>
    match findShipmentById s.shipments o.shipment with
    | none => (.crash, s)
    | some _ =>
      (.ok, { s with shipments := setShipmentStatus s.shipments o.shipment newStatus })

/-- The reduce of line 325, started from any accumulator, is that accumulator
plus the sum of quantity times priceAtPurchase over the items. -/
theorem foldl_total_aux (items : List OrderItem) :
    ∀ init : Int,
      items.foldl (fun acc it => acc + (it.quantity : Int) * it.priceAtPurchase) init
        = init + (items.map fun it => (it.quantity : Int) * it.priceAtPurchase).sum := by
  induction items with
  | nil => intro init; simp
  | cons x rest ih =>
      intro init
      simp only [List.foldl_cons, List.map_cons, List.sum_cons, ih]
      ring

/-- `computeTotal` is the exact sum over the items of quantity times
priceAtPurchase. -/
theorem computeTotal_eq_sum (items : List OrderItem) :
    computeTotal items
      = (items.map fun it => (it.quantity : Int) * it.priceAtPurchase).sum := by
  simpa using foldl_total_aux items 0

/-- A product found by id carries that id and belongs to the catalog. -/
theorem findProduct_pid (catalog : List Product) (id : Nat) (p : Product)
    (h : findProduct catalog id = some p) : p.pid = id ∧ p ∈ catalog := by
  unfold findProduct at h
  constructor
  · have := List.find?_some h
    simpa using this
  · exact List.mem_of_find?_eq_some h

/-- Looking a found product up again by its own id returns it. -/
theorem findProduct_mem_self (catalog : List Product) (id : Nat) (p : Product)
    (h : findProduct catalog id = some p) : findProduct catalog p.pid = some p := by
  obtain ⟨hpid, -⟩ := findProduct_pid catalog id p h
  rw [hpid]
  exact h

/-- Every entry collected by a passing validation loop is a product document
the loop read (with `findById`) for some cart item, at that item's
quantity. -/
theorem validateCart_ok_sources (catalog : List Product) :
    ∀ (cart : List CartItem) (entries : List (Product × Nat)),
      validateCart catalog cart = .ok entries →
      ∀ e ∈ entries, ∃ it ∈ cart,
        findProduct catalog it.product = some e.1 ∧ e.2 = it.quantity := by
  intro cart
  induction cart with
  | nil =>
      intro entries h e he
      simp only [validateCart, ValidationOutcome.ok.injEq] at h
      subst h
      simp at he
  | cons it rest ih =>
      intro entries h e he
      simp only [validateCart] at h
      cases hfind : findProduct catalog it.product with
      | none => simp only [hfind] at h; exact absurd h (by simp)
      | some p =>
          simp only [hfind] at h
          by_cases hstock : p.stock < (it.quantity : Int)
          · rw [if_pos hstock] at h; exact absurd h (by simp)
          · rw [if_neg hstock] at h
            cases hrest : validateCart catalog rest with
            | missing => simp only [hrest] at h; exact absurd h (by simp)
            | insufficient q => simp only [hrest] at h; exact absurd h (by simp)
            | ok es =>
                simp only [hrest, ValidationOutcome.ok.injEq] at h
                subst h
                rw [List.mem_cons] at he
                rcases he with he | he
                · subst he
                  exact ⟨it, List.mem_cons_self it rest, hfind, rfl⟩
                · obtain ⟨it2, hit2, hf, hq⟩ := ih es hrest e he
                  exact ⟨it2, List.mem_cons_of_mem it hit2, hf, hq⟩

/-- The product a failing validation loop reports was read for some cart
item whose requested quantity exceeds its stock. -/
theorem validateCart_insufficient_source (catalog : List Product) :
    ∀ (cart : List CartItem) (p : Product),
      validateCart catalog cart = .insufficient p →
      ∃ it ∈ cart, findProduct catalog it.product = some p ∧
        p.stock < (it.quantity : Int) := by
  intro cart
  induction cart with
  | nil =>
      intro p h
      simp [validateCart] at h
  | cons it rest ih =>
      intro p h
      simp only [validateCart] at h
      cases hfind : findProduct catalog it.product with
      | none => simp only [hfind] at h; exact absurd h (by simp)
      | some q =>
          simp only [hfind] at h
          by_cases hstock : q.stock < (it.quantity : Int)
          · rw [if_pos hstock] at h
            simp only [ValidationOutcome.insufficient.injEq] at h
            subst h
            exact ⟨it, List.mem_cons_self it rest, hfind, hstock⟩
          · rw [if_neg hstock] at h
            cases hrest : validateCart catalog rest with
            | missing => simp only [hrest] at h; exact absurd h (by simp)
            | insufficient r =>
                simp only [hrest, ValidationOutcome.insufficient.injEq] at h
                subst h
                obtain ⟨it2, hit2, hf, hs⟩ := ih r hrest
                exact ⟨it2, List.mem_cons_of_mem it hit2, hf, hs⟩
            | ok es => simp only [hrest] at h; exact absurd h (by simp)

/-- Inversion of the checkout success path: an `ok` response means the
validation loop passed on a nonempty cart, the returned order id and
paymentRequired flag are the ones of lines 331 and 338, and the final state
is the success state (decremented stock, new shipment and order, cleared
cart). -/
theorem checkout_ok_inv (pm : String) (s : AppState) (oid : Nat) (pr : Bool)
    (s' : AppState) (hok : checkout pm s = (.ok oid pr, s')) :
    ∃ entries, validateCart s.catalog s.cart = .ok entries ∧
      s.cart ≠ [] ∧ oid = s.nextId + 1 ∧ pr = (pm != "cod") ∧
      s' = successState s entries pm := by
  unfold checkout at hok
  by_cases hemp : s.cart.isEmpty
  · rw [if_pos hemp] at hok
    exact absurd hok (by simp)
  · rw [if_neg hemp] at hok
    cases hv : validateCart s.catalog s.cart with
    | missing => rw [hv] at hok; exact absurd hok (by simp)
    | insufficient p => rw [hv] at hok; exact absurd hok (by simp)
    | ok entries =>
        rw [hv] at hok
        have h1 := congrArg Prod.fst hok
        have h2 := congrArg Prod.snd hok
        simp only at h1 h2
        injection h1 with ha hb
        refine ⟨entries, rfl, ?_, ha.symm, hb.symm, h2.symm⟩
        intro hnil
        rw [hnil] at hemp
        exact hemp rfl

/-- The decrement loop of lines 317-322 updates every catalog entry by
subtracting the total quantity the cart requests for its id, and touches
nothing else. -/
theorem decrementAll_eq_map (cart : List CartItem) :
    ∀ catalog : List Product,
      decrementAll catalog cart
        = catalog.map fun p => { p with stock := p.stock - cartQty cart p.pid } := by
  induction cart with
  | nil =>
      intro catalog
      show catalog = catalog.map fun p => { p with stock := p.stock - cartQty [] p.pid }
      have h : (fun p : Product => { p with stock := p.stock - cartQty [] p.pid })
          = fun p => p := by
        funext p
        simp [cartQty]
      rw [h]
      exact (List.map_id' catalog).symm
  | cons it rest ih =>
      intro catalog
      show decrementAll (applyDecrement catalog it) rest
          = catalog.map fun p => { p with stock := p.stock - cartQty (it :: rest) p.pid }
      rw [ih, applyDecrement, List.map_map]
      have h : ((fun p : Product => { p with stock := p.stock - cartQty rest p.pid }) ∘
          fun p : Product =>
            if p.pid = it.product then { p with stock := p.stock - (it.quantity : Int) } else p)
          = fun p : Product => { p with stock := p.stock - cartQty (it :: rest) p.pid } := by
        funext p
        by_cases hp : p.pid = it.product
        · simp [Function.comp, hp, cartQty, sub_sub]
        · simp [Function.comp, hp, cartQty]
      rw [h]

/-- C1: the no-oversell claim fails on the code.  With a single product
holding stock 1 and two concurrent checkouts each requesting quantity 1, the
interleaving in which both validation loops (lines 311-315) complete before
either decrement loop (lines 317-322) runs lets both requests succeed: the
quantities sold sum to 2 > 1 and the stock is driven to -1.  The two-pass
read-then-write sequence has no conditional update at commit time. -/
theorem C1_concurrent_oversell :
    interleavedCheckout2 [⟨1, "Widget", 10, 1, true⟩] [⟨1, 1⟩] [⟨1, 1⟩]
      = (true, true, [⟨1, "Widget", 10, -1, true⟩]) := by
  decide

/-- C2: the shipment-transition claim fails on the code.  The handler of
lines 364-373 performs no transition validation: with the shipment in status
Created, a request naming the non-adjacent target Delivered succeeds (it
returns ok, not InvalidShipmentTransition) and the stored status becomes
Delivered, so the status did not stay unchanged and the observed sequence
need not follow Created, Shipped, InTransit, Delivered. -/
theorem C2_transition_not_validated :
    updateShipment 1 "Delivered"
        ⟨[], [], [⟨1, [], 0, "cod", "Pending", 1⟩], [⟨1, "TRK-1", "Created"⟩], 2⟩
      = (.ok, ⟨[], [], [⟨1, [], 0, "cod", "Pending", 1⟩],
          [⟨1, "TRK-1", "Delivered"⟩], 2⟩) := by
  decide

/-- C3: the rollback claim fails on the code.  Starting from stock 5 and a
cart requesting quantity 2, if the order persistence of line 331 fails after
the stock was decremented (lines 317-322) and the shipment created
(line 328), the handler has no compensation path: afterwards the stock is
permanently 3 (not back to 5) and a dangling Shipment is observable. -/
theorem C3_no_rollback :
    checkoutOrderCreateFails "card" ⟨[⟨1, "Widget", 10, 5, true⟩], [⟨1, 2⟩], [], [], 1⟩
      = (.crash,
         ⟨[⟨1, "Widget", 10, 3, true⟩], [⟨1, 2⟩], [], [⟨1, "TRK-1", "Created"⟩], 2⟩) := by
  decide

/-- C4: for every successful checkout, the appended order's total is exactly
the sum over its line items of quantity times priceAtPurchase, every
priceAtPurchase (and cod flag) is the server-held product record captured
from the pre-checkout catalog, and replacing the catalog afterwards (a later
price change) leaves the stored orders untouched. -/
theorem C4_total_from_server_prices (pm : String) (s : AppState) (oid : Nat)
    (pr : Bool) (s' : AppState) (hok : checkout pm s = (.ok oid pr, s')) :
    ∃ o, s'.orders = o :: s.orders ∧
      o.total = (o.items.map fun it => (it.quantity : Int) * it.priceAtPurchase).sum ∧
      (∀ it ∈ o.items, ∃ p, findProduct s.catalog it.product = some p ∧
        it.priceAtPurchase = p.price ∧ it.cod = p.codAvailable) ∧
      (∀ newCatalog, ({ s' with catalog := newCatalog } : AppState).orders = s'.orders) := by
  obtain ⟨entries, hv, hne, hoid, hpr, hs'⟩ := checkout_ok_inv pm s oid pr s' hok
  subst hs'
  refine ⟨mkOrder s.nextId entries pm, rfl, ?_, ?_, fun c => rfl⟩
  · exact computeTotal_eq_sum (entries.map mkOrderItem)
  · intro it hit
    obtain ⟨e, he, heq⟩ := List.mem_map.mp hit
    subst heq
    obtain ⟨it2, hit2, hf, hq⟩ := validateCart_ok_sources s.catalog s.cart entries hv e he
    exact ⟨e.1, findProduct_mem_self s.catalog it2.product e.1 hf, rfl, rfl⟩

/-- C4 witness: a concrete successful checkout (stock 5, cart quantity 2,
price 10) creating the single order with total 20 = 2 times 10. -/
theorem C4_total_witness :
    ∃ o : Order,
      (AppState.mk [⟨1, "Widget", 10, 3, true⟩] []
          [⟨2, [⟨1, 2, 10, true⟩], 20, "card", "Processing", 1⟩]
          [⟨1, "TRK-1", "Created"⟩] 3).orders = o :: ([] : List Order) ∧
      o.total = (o.items.map fun it => (it.quantity : Int) * it.priceAtPurchase).sum := by
  obtain ⟨o, h1, h2, -, -⟩ :=
    C4_total_from_server_prices "card"
      ⟨[⟨1, "Widget", 10, 5, true⟩], [⟨1, 2⟩], [], [], 1⟩ 2 true
      ⟨[⟨1, "Widget", 10, 3, true⟩], [],
        [⟨2, [⟨1, 2, 10, true⟩], 20, "card", "Processing", 1⟩],
        [⟨1, "TRK-1", "Created"⟩], 3⟩ (by decide)
  exact ⟨o, h1, h2⟩

/-- C5: the idempotency claim fails on the code.  The checkout body carries
no idempotency key (any such field is ignored), and a repeated call re-runs
the whole handler: after a first successful call (order id 2), the second
identical call finds the cleared cart and fails EmptyCart instead of
returning the first call result.  Only the "exactly one order" half holds
sequentially, and only because the cart was cleared. -/
theorem C5_no_idempotency :
    (checkout "cod" ⟨[⟨1, "Widget", 10, 5, true⟩], [⟨1, 2⟩], [], [], 1⟩).1 = .ok 2 false ∧
    (checkout "cod" (checkout "cod"
        ⟨[⟨1, "Widget", 10, 5, true⟩], [⟨1, 2⟩], [], [], 1⟩).2).1 = .emptyCart ∧
    (checkout "cod" (checkout "cod"
        ⟨[⟨1, "Widget", 10, 5, true⟩], [⟨1, 2⟩], [], [], 1⟩).2).1 ≠ .ok 2 false ∧
    ((checkout "cod" (checkout "cod"
        ⟨[⟨1, "Widget", 10, 5, true⟩], [⟨1, 2⟩], [], [], 1⟩).2).2).orders.length = 1 := by
  decide

/-- C6: if the validation loop of lines 311-315 hits an item whose product
has stock below the requested quantity, checkout returns the
InsufficientStock error naming that product (the first failing one, since
the loop reports the first) and the state is completely unchanged — in
particular nothing was decremented; moreover the reported product really is
a cart product with stock below the cart quantity. -/
theorem C6_insufficient_aborts (pm : String) (s : AppState) (p : Product)
    (hv : validateCart s.catalog s.cart = .insufficient p) :
    checkout pm s = (.insufficientStock p.name, s) ∧
    ∃ it ∈ s.cart, findProduct s.catalog it.product = some p ∧
      p.stock < (it.quantity : Int) := by
  have hne : s.cart.isEmpty = false := by
    cases hc : s.cart with
    | nil => rw [hc] at hv; simp [validateCart] at hv
    | cons a l => simp
  constructor
  · simp [checkout, hne, hv]
  · exact validateCart_insufficient_source s.catalog s.cart p hv

/-- C6 witness: stock 1, requested quantity 2 — checkout aborts naming the
product and leaves the state untouched. -/
theorem C6_insufficient_witness :
    checkout "card" ⟨[⟨1, "Widget", 10, 1, true⟩], [⟨1, 2⟩], [], [], 1⟩
      = (.insufficientStock "Widget",
         ⟨[⟨1, "Widget", 10, 1, true⟩], [⟨1, 2⟩], [], [], 1⟩) ∧
    ∃ it ∈ ([⟨1, 2⟩] : List CartItem),
      findProduct [⟨1, "Widget", 10, 1, true⟩] it.product
          = some ⟨1, "Widget", 10, 1, true⟩ ∧
      (Product.mk 1 "Widget" 10 1 true).stock < (it.quantity : Int) :=
  C6_insufficient_aborts "card" ⟨[⟨1, "Widget", 10, 1, true⟩], [⟨1, 2⟩], [], [], 1⟩
    ⟨1, "Widget", 10, 1, true⟩ (by decide)

/-- C7: with an empty (or absent, modelled the same) cart, checkout returns
the EmptyCart error and the returned state is the input state: no stock
change, no order, no shipment, no cart mutation. -/
theorem C7_empty_cart_no_side_effects (pm : String) (s : AppState)
    (h : s.cart = []) : checkout pm s = (.emptyCart, s) := by
  simp [checkout, h]

/-- C7 witness: a concrete empty-cart state. -/
theorem C7_empty_cart_witness :
    checkout "card" ⟨[⟨1, "Widget", 10, 5, true⟩], [], [], [], 1⟩
      = (.emptyCart, ⟨[⟨1, "Widget", 10, 5, true⟩], [], [], [], 1⟩) :=
  C7_empty_cart_no_side_effects "card" _ rfl

/-- C8: every successful checkout returns paymentRequired true exactly when
the payment method is not cod, and the created order's initial paymentStatus
is Pending for cod and Processing otherwise. -/
theorem C8_payment_status_and_required (pm : String) (s : AppState) (oid : Nat)
    (pr : Bool) (s' : AppState) (hok : checkout pm s = (.ok oid pr, s')) :
    (pr = true ↔ pm ≠ "cod") ∧
    ∃ o, s'.orders = o :: s.orders ∧
      (pm = "cod" → o.paymentStatus = "Pending") ∧
      (pm ≠ "cod" → o.paymentStatus = "Processing") := by
  obtain ⟨entries, hv, hne, hoid, hpr, hs'⟩ := checkout_ok_inv pm s oid pr s' hok
  subst hs'
  subst hpr
  refine ⟨by simp [bne_iff_ne], mkOrder s.nextId entries pm, rfl, ?_, ?_⟩
  · intro h; simp [mkOrder, h]
  · intro h; simp [mkOrder, h]

/-- C8 witness: a concrete cod checkout, paymentRequired false and
paymentStatus Pending. -/
theorem C8_payment_witness :
    (false = true ↔ ("cod" : String) ≠ "cod") ∧
    ∃ o, (AppState.mk [⟨1, "Widget", 10, 3, true⟩] []
          [⟨2, [⟨1, 2, 10, true⟩], 20, "cod", "Pending", 1⟩]
          [⟨1, "TRK-1", "Created"⟩] 3).orders = o :: ([] : List Order) ∧
      (("cod" : String) = "cod" → o.paymentStatus = "Pending") ∧
      (("cod" : String) ≠ "cod" → o.paymentStatus = "Processing") :=
  C8_payment_status_and_required "cod"
    ⟨[⟨1, "Widget", 10, 5, true⟩], [⟨1, 2⟩], [], [], 1⟩ 2 false
    ⟨[⟨1, "Widget", 10, 3, true⟩], [],
      [⟨2, [⟨1, 2, 10, true⟩], 20, "cod", "Pending", 1⟩],
      [⟨1, "TRK-1", "Created"⟩], 3⟩ (by decide)

/-- C9 counterexample: the claim says tracking lookup fails NotFound when the
order's shipment does not exist, but on a state whose order references a
missing shipment the handler dereferences a null document (line 360) and
crashes — the outcome is not NotFound. -/
theorem C9_missing_shipment_not_notFound :
    getTracking 7 ⟨[], [], [⟨7, [], 0, "cod", "Pending", 9⟩], [], 10⟩ = .crash ∧
    TrackingResult.crash ≠ TrackingResult.notFound := by
  decide

/-- C9 (amended): tracking lookup returns the shipment trackingNumber and
status when the order and its shipment both exist, and fails NotFound when
the order does not exist; a missing shipment under an existing order is not
answered with NotFound (see the counterexample). -/
theorem C9_tracking_views (s : AppState) (oid1 oid2 : Nat) (o : Order)
    (sh : Shipment)
    (h1 : findOrder s.orders oid1 = some o)
    (h2 : findShipmentById s.shipments o.shipment = some sh)
    (h3 : findOrder s.orders oid2 = none) :
    getTracking oid1 s = .ok sh.trackingNumber sh.status ∧
    getTracking oid2 s = .notFound := by
  constructor
  · unfold getTracking; simp [h1, h2]
  · unfold getTracking; simp [h3]

/-- C9 witness: a concrete state with an existing order-plus-shipment and a
missing order id. -/
theorem C9_tracking_witness :
    getTracking 1 ⟨[], [], [⟨1, [], 0, "cod", "Pending", 1⟩],
        [⟨1, "TRK-1", "Created"⟩], 2⟩ = .ok "TRK-1" "Created" ∧
    getTracking 99 ⟨[], [], [⟨1, [], 0, "cod", "Pending", 1⟩],
        [⟨1, "TRK-1", "Created"⟩], 2⟩ = .notFound :=
  C9_tracking_views _ 1 99 ⟨1, [], 0, "cod", "Pending", 1⟩ ⟨1, "TRK-1", "Created"⟩
    (by decide) (by decide) (by decide)

/-- C10: a successful checkout rewrites the catalog pointwise — every
product's stock drops by exactly the total quantity the cart requests for
its id (zero for products not in the cart) and every other field (pid, name,
price, codAvailable) is unchanged; products not in the cart are present
entirely unchanged. -/
theorem C10_catalog_frame (pm : String) (s : AppState) (oid : Nat) (pr : Bool)
    (s' : AppState) (hok : checkout pm s = (.ok oid pr, s')) :
    s'.catalog
        = s.catalog.map (fun p => { p with stock := p.stock - cartQty s.cart p.pid }) ∧
    (∀ p ∈ s.catalog, cartQty s.cart p.pid = 0 → p ∈ s'.catalog) ∧
    (∀ p ∈ s.catalog, ∃ p2 ∈ s'.catalog, p2.pid = p.pid ∧ p2.name = p.name ∧
      p2.price = p.price ∧ p2.codAvailable = p.codAvailable ∧
      p2.stock = p.stock - cartQty s.cart p.pid) := by
  obtain ⟨entries, hv, hne, hoid, hpr, hs'⟩ := checkout_ok_inv pm s oid pr s' hok
  subst hs'
  have hcat : (successState s entries pm).catalog
      = s.catalog.map fun p => { p with stock := p.stock - cartQty s.cart p.pid } :=
    decrementAll_eq_map s.cart s.catalog
  refine ⟨hcat, ?_, ?_⟩
  · intro p hp hq
    rw [hcat]
    have heq : ({ p with stock := p.stock - cartQty s.cart p.pid } : Product) = p := by
      rw [hq, sub_zero]
    exact List.mem_map.mpr ⟨p, hp, heq⟩
  · intro p hp
    rw [hcat]
    exact ⟨{ p with stock := p.stock - cartQty s.cart p.pid },
      List.mem_map.mpr ⟨p, hp, rfl⟩, rfl, rfl, rfl, rfl, rfl⟩

/-- C10 witness: two products, only the one in the cart loses stock (5 to 3)
with price and codAvailable intact, the other is untouched. -/
theorem C10_frame_witness :
    (AppState.mk [⟨1, "Widget", 10, 3, true⟩, ⟨2, "Gadget", 7, 4, false⟩] []
          [⟨2, [⟨1, 2, 10, true⟩], 20, "card", "Processing", 1⟩]
          [⟨1, "TRK-1", "Created"⟩] 3).catalog
      = ([⟨1, "Widget", 10, 5, true⟩, ⟨2, "Gadget", 7, 4, false⟩] : List Product).map
          (fun p => { p with stock := p.stock - cartQty [⟨1, 2⟩] p.pid }) ∧
    (∀ p ∈ ([⟨1, "Widget", 10, 5, true⟩, ⟨2, "Gadget", 7, 4, false⟩] : List Product),
      cartQty [⟨1, 2⟩] p.pid = 0 →
      p ∈ (AppState.mk [⟨1, "Widget", 10, 3, true⟩, ⟨2, "Gadget", 7, 4, false⟩] []
          [⟨2, [⟨1, 2, 10, true⟩], 20, "card", "Processing", 1⟩]
          [⟨1, "TRK-1", "Created"⟩] 3).catalog) ∧
    (∀ p ∈ ([⟨1, "Widget", 10, 5, true⟩, ⟨2, "Gadget", 7, 4, false⟩] : List Product),
      ∃ p2 ∈ (AppState.mk [⟨1, "Widget", 10, 3, true⟩, ⟨2, "Gadget", 7, 4, false⟩] []
          [⟨2, [⟨1, 2, 10, true⟩], 20, "card", "Processing", 1⟩]
          [⟨1, "TRK-1", "Created"⟩] 3).catalog,
        p2.pid = p.pid ∧ p2.name = p.name ∧ p2.price = p.price ∧
        p2.codAvailable = p.codAvailable ∧
        p2.stock = p.stock - cartQty [⟨1, 2⟩] p.pid) :=
  C10_catalog_frame "card"
    ⟨[⟨1, "Widget", 10, 5, true⟩, ⟨2, "Gadget", 7, 4, false⟩], [⟨1, 2⟩], [], [], 1⟩ 2 true
    ⟨[⟨1, "Widget", 10, 3, true⟩, ⟨2, "Gadget", 7, 4, false⟩], [],
      [⟨2, [⟨1, 2, 10, true⟩], 20, "card", "Processing", 1⟩],
      [⟨1, "TRK-1", "Created"⟩], 3⟩ (by decide)

end Shop
